import Mathlib

/-!
Shallow embedding of `src/productRoutes.js` (the main route variant, which
uses the Product model with an `image` field and `timestamps`) and of the
multer / express-validator middleware it installs.

Numbers are modelled as rationals; `parseFloat(x.toFixed(2))` is modelled
by `round2` (round to 2 decimals, ties towards the larger value, as the
ECMAScript `toFixed` specification prescribes).  Request bodies arrive
from a multipart form, so every body field is a string or absent; the code
compares `gstEnabled === 'true'` on the raw string.  JavaScript's
`String.prototype.trim` and `String.prototype.startsWith` are modelled by
the structural helpers `trimString` and `beginsWith`.  Cloudinary is
modelled by an `upload` oracle (`UploadedFile → Option String`, `none`
meaning the upload rejects) and a `destroySucceeds` flag for the `destroy`
call, whose outcome the source swallows in a `try/catch`.  Stateful
effects are explicit: each handler takes the store (a list of products)
and returns the outcome, the resulting store, and the list of external
calls it attempted (upload attempts, resp. Cloudinary destroy public ids).
-/

namespace BackendItems

/-- `parseFloat(x.toFixed(2))`: round to two decimal digits, picking the
larger candidate on a tie (the ECMAScript `toFixed` rule). -/
def round2 (q : ℚ) : ℚ := (⌊q * 100 + 1/2⌋ : ℚ) / 100

/-- Drop leading whitespace characters. -/
def dropLeadingWs : List Char → List Char
  | [] => []
  | c :: cs => if c.isWhitespace then dropLeadingWs cs else c :: cs

/-- JavaScript `s.trim()`: remove whitespace from both ends. -/
def trimString (s : String) : String :=
  String.mk ((dropLeadingWs ((dropLeadingWs s.data).reverse)).reverse)

/-- Whether the first list is an initial segment of the second. -/
def listIsInit : List Char → List Char → Bool
  | [], _ => true
  | _ :: _, [] => false
  | a :: xs, b :: ys => a == b && listIsInit xs ys

/-- JavaScript `s.startsWith(pre)`. -/
def beginsWith (pre s : String) : Bool := listIsInit pre.data s.data

/-- A file parsed by multer's memory storage: its media type and its size
in bytes (the buffer contents are irrelevant to the routes' control flow). -/
structure UploadedFile where
  mimetype : String
  size : Nat
deriving DecidableEq, Repr

/-- `limits.fileSize` of the multer configuration: 5MB. -/
def fileSizeLimit : Nat := 5 * 1024 * 1024

/-- multer's `fileFilter`: accept image files only. -/
def fileFilterAccepts (f : UploadedFile) : Bool :=
  beginsWith "image/" f.mimetype

/-- A file gets through the multer middleware iff the filter accepts it and
its size is within `limits.fileSize`. -/
def multerAccepts (f : UploadedFile) : Bool :=
  fileFilterAccepts f && decide (f.size ≤ fileSizeLimit)

/-- A multipart request body: every field is a raw string or absent, except
`sellPrice`, recorded as the number it parses to (`none` when absent or not
numeric, which makes `isFloat` fail). -/
structure ReqBody where
  itemName : Option String
  sellPrice : Option ℚ
  type : Option String
  primaryUnit : Option String
  customUnit : Option String
  gstEnabled : Option String
deriving DecidableEq, Repr

/-- The `validateProduct` express-validator chain: the list of validation
error messages (empty = valid).  `itemName` is trimmed then must be
non-empty; `sellPrice` must parse to a float `≥ 0`; `type` must be `Veg` or
`Non-Veg`; `primaryUnit` is optional but must come from its enumerated set
when present.  A missing required field fails its validator. -/
def validateProduct (b : ReqBody) : List String :=
  (if trimString (b.itemName.getD "") == "" then ["Item name is required"] else []) ++
  (match b.sellPrice with
    | some q => if 0 ≤ q then [] else ["Sell price must be a positive number"]
    | none => ["Sell price must be a positive number"]) ++
  (match b.type with
    | some t => if t == "Veg" || t == "Non-Veg" then [] else ["Invalid product type"]
    | none => ["Invalid product type"]) ++
  (match b.primaryUnit with
    | some u => if u == "piece" || u == "kg" || u == "gram" || u == "" then []
                else ["Invalid value"]
    | none => [])

/-- A stored product record (the Product model used by these routes:
`image` field present, `createdAt` supplied by `timestamps`). -/
structure Product where
  id : Nat
  itemName : String
  sellPrice : ℚ
  type : String
  primaryUnit : Option String
  customUnit : Option String
  gstEnabled : Bool
  gstPercentage : ℚ
  gstAmount : ℚ
  totalPrice : ℚ
  barcode : String
  image : Option String
  createdAt : Nat
deriving DecidableEq, Repr

/-- `uploadToCloudinary`: `null` file gives `null`; otherwise the upload
oracle either returns a secure URL or the helper throws
`'Image upload failed'`. -/
def uploadToCloudinary (upload : UploadedFile → Option String) :
    Option UploadedFile → Except String (Option String)
  | none => .ok none
  | some f =>
    match upload f with
    | some url => .ok (some url)
    | none => .error "Image upload failed"

/-- JavaScript `s.split(sep)` on character separators: split into the
(never empty) list of chunks between occurrences of `sep`. -/
def splitOnChar (sep : Char) : List Char → List (List Char)
  | [] => [[]]
  | c :: cs =>
    let rest := splitOnChar sep cs
    if c == sep then [] :: rest
    else (c :: rest.headD []) :: rest.tail

/-- `existingProduct.image.split('/').pop().split('.')[0]`: the public id
extracted from a Cloudinary URL. -/
def publicIdOf (url : String) : String :=
  String.mk ((splitOnChar '.' ((splitOnChar '/' url.data).getLastD [])).headD [])

/-- The GST / total computation shared by both handlers: from the raw
`gstEnabled` form value and the parsed `sellPrice`, derive
`(gstPercentage, gstAmount, totalPrice)` exactly as the source computes
them (`gstEnabled === 'true' ? 5 : 0`, 5% rounded to 2 decimals when
enabled, rounded sum). -/
def gstComputation (body : ReqBody) : ℚ × ℚ × ℚ :=
  let gstOn := body.gstEnabled == some "true"
  let sellPriceFloat := body.sellPrice.getD 0
  let gstPercentage : ℚ := if gstOn then 5 else 0
  let gstAmount : ℚ := if gstOn then round2 (sellPriceFloat * (5 / 100)) else 0
  let totalPrice : ℚ := round2 (sellPriceFloat + gstAmount)
  (gstPercentage, gstAmount, totalPrice)

/-- The record built by `new Product({...})` in the create handler. -/
def newProductOf (body : ReqBody) (imageUrl : Option String)
    (newId : Nat) (barcode : String) (now : Nat) : Product :=
  { id := newId
    itemName := trimString (body.itemName.getD "")
    sellPrice := body.sellPrice.getD 0
    type := body.type.getD ""
    primaryUnit := body.primaryUnit
    customUnit := body.customUnit
    gstEnabled := body.gstEnabled == some "true"
    gstPercentage := (gstComputation body).1
    gstAmount := (gstComputation body).2.1
    totalPrice := (gstComputation body).2.2
    barcode := barcode
    image := imageUrl
    createdAt := now }

/-- The field-assignment block of the update handler: overwrite the mutable
fields and the re-derived GST fields, keep everything else. -/
def updatedProductOf (existingProduct : Product) (body : ReqBody)
    (imageUrl : Option String) : Product :=
  { existingProduct with
    sellPrice := body.sellPrice.getD 0
    type := body.type.getD ""
    primaryUnit := body.primaryUnit
    customUnit := body.customUnit
    gstEnabled := body.gstEnabled == some "true"
    gstPercentage := (gstComputation body).1
    gstAmount := (gstComputation body).2.1
    totalPrice := (gstComputation body).2.2
    image := imageUrl }

/-- Outcome of `POST /products`. -/
inductive CreateOutcome where
  | fileRejected
  | validationError (errors : List String)
  | uploadError (msg : String)
  | created (p : Product)
deriving DecidableEq, Repr

/-- The `POST /products` handler with its middleware: multer filters the
attached file, `validateProduct` runs, the image (if any) is uploaded, GST
fields are derived, a product is built and appended to the store.  Returns
the outcome, the resulting store, and the files whose upload was attempted.
`newId`, `barcode` and `now` stand for the id Mongo assigns, the random
barcode draw and the `timestamps` creation time. -/
def createProduct (upload : UploadedFile → Option String) (body : ReqBody)
    (file : Option UploadedFile) (store : List Product)
    (newId : Nat) (barcode : String) (now : Nat) :
    CreateOutcome × List Product × List UploadedFile :=
  if !(file.all multerAccepts) then (.fileRejected, store, [])
  else if validateProduct body ≠ [] then (.validationError (validateProduct body), store, [])
  else
    match uploadToCloudinary upload file with
    | .error msg => (.uploadError msg, store, file.toList)
    | .ok imageUrl =>
      (.created (newProductOf body imageUrl newId barcode now),
       store ++ [newProductOf body imageUrl newId barcode now],
       file.toList)

/-- Outcome of `PUT /products/:id`. -/
inductive UpdateOutcome where
  | fileRejected
  | validationError (errors : List String)
  | notFound
  | uploadError (msg : String)
  | updated (p : Product)
deriving DecidableEq, Repr

/-- The `PUT /products/:id` handler with its middleware.  After validation
and `findById`, a supplied file first triggers a destroy of the old asset
(when one is referenced) whose failure is only warned about — which is why
`destroySucceeds` is never consulted — then the new file is uploaded; the
mutable fields and the re-derived GST fields are written back.  Returns the
outcome, the resulting store, and the Cloudinary public ids whose destroy
was attempted. -/
def updateProduct (upload : UploadedFile → Option String) (destroySucceeds : Bool)
    (body : ReqBody) (file : Option UploadedFile) (store : List Product)
    (productId : Nat) :
    UpdateOutcome × List Product × List String :=
  if !(file.all multerAccepts) then (.fileRejected, store, [])
  else if validateProduct body ≠ [] then (.validationError (validateProduct body), store, [])
  else
    match store.find? (fun p => p.id == productId) with
    | none => (.notFound, store, [])
    | some existingProduct =>
      match file with
      | none =>
        (.updated (updatedProductOf existingProduct body existingProduct.image),
         store.map (fun p => if p.id == productId
           then updatedProductOf existingProduct body existingProduct.image else p),
         [])
      | some f =>
        let destroyCalls : List String :=
          match existingProduct.image with
          | some img => ["products/" ++ publicIdOf img]
          | none => []
        match uploadToCloudinary upload (some f) with
        | .error msg => (.uploadError msg, store, destroyCalls)
        | .ok imageUrl =>
          (.updated (updatedProductOf existingProduct body imageUrl),
           store.map (fun p => if p.id == productId
             then updatedProductOf existingProduct body imageUrl else p),
           destroyCalls)

/-- Outcome of `DELETE /products/:id`. -/
inductive DeleteOutcome where
  | notFound
  | deleted (p : Product)
deriving DecidableEq, Repr

/-- The `DELETE /products/:id` handler: `findById`, 404 when absent,
best-effort destroy of the referenced asset (failure swallowed, so
`destroySucceeds` is never consulted), then `findByIdAndDelete`. -/
def deleteProduct (destroySucceeds : Bool) (store : List Product)
    (productId : Nat) :
    DeleteOutcome × List Product × List String :=
  match store.find? (fun p => p.id == productId) with
  | none => (.notFound, store, [])
  | some product =>
    let destroyCalls : List String :=
      match product.image with
      | some img => ["products/" ++ publicIdOf img]
      | none => []
    (.deleted product, store.filter (fun p => !(p.id == productId)), destroyCalls)

/-- One insertion step of sorting by `createdAt` descending. -/
def insertDesc (p : Product) : List Product → List Product
  | [] => [p]
  | q :: rest =>
    if q.createdAt ≤ p.createdAt then p :: q :: rest else q :: insertDesc p rest

/-- `Product.find().sort({ createdAt: -1 })`: the store ordered by
`createdAt` descending (newest first). -/
def sortByCreatedAtDesc : List Product → List Product
  | [] => []
  | p :: rest => insertDesc p (sortByCreatedAtDesc rest)

/-- The `GET /products` handler: the whole store, newest first. -/
def listProducts (store : List Product) : List Product :=
  sortByCreatedAtDesc store

/-- The derived-field invariant of the specification: `gstPercentage` is 5
exactly when GST is enabled, `gstAmount` is the rounded 5% of `sellPrice`
when enabled and 0 otherwise, and `totalPrice` is the rounded sum. -/
def derivedFieldsOk (p : Product) : Prop :=
  p.gstPercentage = (if p.gstEnabled then 5 else 0) ∧
  p.gstAmount = (if p.gstEnabled then round2 (p.sellPrice * (5 / 100)) else 0) ∧
  p.totalPrice = round2 (p.sellPrice + p.gstAmount)

/-! Concrete request bodies, files and records used to exercise the model. -/

/-- The specification's concrete scenario input, as a multipart body. -/
def teaBody : ReqBody :=
  { itemName := some "Tea", sellPrice := some 20, type := some "Beverage",
    primaryUnit := none, customUnit := none, gstEnabled := some "true" }

/-- The same input with a product type the route's validator accepts. -/
def teaVegBody : ReqBody := { teaBody with type := some "Veg" }

/-- A body whose `itemName` field is absent. -/
def noNameBody : ReqBody :=
  { itemName := none, sellPrice := some 10, type := some "Veg",
    primaryUnit := none, customUnit := none, gstEnabled := some "false" }

/-- A body whose `itemName` is whitespace only. -/
def blankNameBody : ReqBody :=
  { itemName := some "   ", sellPrice := some 20, type := some "Veg",
    primaryUnit := none, customUnit := none, gstEnabled := some "false" }

/-- A valid body that supplies a fresh `itemName` value. -/
def renameBody : ReqBody :=
  { itemName := some "NewName", sellPrice := some 12, type := some "Veg",
    primaryUnit := none, customUnit := none, gstEnabled := some "true" }

/-- A small image file, accepted by the multer configuration. -/
def imgFile : UploadedFile := { mimetype := "image/png", size := 1024 }

/-- A non-image file, rejected by the multer file filter. -/
def pdfFile : UploadedFile := { mimetype := "application/pdf", size := 1024 }

/-- A stored record with no image. -/
def sampleProduct : Product :=
  { id := 5, itemName := "Chai", sellPrice := 10, type := "Veg",
    primaryUnit := none, customUnit := none, gstEnabled := false,
    gstPercentage := 0, gstAmount := 0, totalPrice := 10,
    barcode := "999", image := none, createdAt := 3 }

/-- A stored record that references a hosted image asset. -/
def oldImgProduct : Product :=
  { sampleProduct with
    id := 7
    image := some "https://res.cloudinary.com/demo/products/old456.png" }

/-! Helper lemmas shared by the claim theorems. -/

/-- The create-handler record always satisfies the derived-field
invariant, by construction. -/
lemma newProductOf_derived (body : ReqBody) (imageUrl : Option String)
    (newId : Nat) (barcode : String) (now : Nat) :
    derivedFieldsOk (newProductOf body imageUrl newId barcode now) :=
  ⟨rfl, rfl, rfl⟩

/-- The update-handler record always satisfies the derived-field
invariant, by construction. -/
lemma updatedProductOf_derived (existingProduct : Product) (body : ReqBody)
    (imageUrl : Option String) :
    derivedFieldsOk (updatedProductOf existingProduct body imageUrl) :=
  ⟨rfl, rfl, rfl⟩

/-- A body whose trimmed `itemName` is empty always produces the
`Item name is required` message at the head of the validation errors. -/
lemma validate_missing_name (b : ReqBody) (h : trimString (b.itemName.getD "") = "") :
    ∃ rest, validateProduct b = "Item name is required" :: rest := by
  unfold validateProduct
  rw [h]
  exact ⟨_, rfl⟩

/-- Characterization of a successful create without a file. -/
lemma createProduct_noFile_success (upload : UploadedFile → Option String)
    (body : ReqBody) (store : List Product) (newId : Nat) (barcode : String)
    (now : Nat) (hv : validateProduct body = []) :
    createProduct upload body none store newId barcode now =
      (.created (newProductOf body none newId barcode now),
       store ++ [newProductOf body none newId barcode now], []) := by
  unfold createProduct
  simp [hv, uploadToCloudinary]

/-! Claim theorems. -/

/-- C1: for every successfully created or updated product, the derived
fields satisfy `gstPercentage = 5` when GST is enabled (else 0),
`gstAmount = round2 (sellPrice * 5%)` when enabled (else 0), and
`totalPrice = round2 (sellPrice + gstAmount)`, immediately after the
create and after every update. -/
theorem gst_fields_consistent_after_create_and_update :
    (∀ upload body file store newId barcode now p s calls,
      createProduct upload body file store newId barcode now = (.created p, s, calls) →
      derivedFieldsOk p) ∧
    (∀ upload destroySucceeds body file store productId p s calls,
      updateProduct upload destroySucceeds body file store productId = (.updated p, s, calls) →
      derivedFieldsOk p) := by
  constructor
  · intro upload body file store newId barcode now p s calls h
    unfold createProduct at h
    split at h
    · simp at h
    split at h
    · simp at h
    split at h
    · simp at h
    · simp only [Prod.mk.injEq, CreateOutcome.created.injEq] at h
      obtain ⟨hp, -, -⟩ := h
      subst hp
      exact newProductOf_derived ..
  · intro upload destroySucceeds body file store productId p s calls h
    unfold updateProduct at h
    repeat' split at h
    all_goals
      first
        | (simp at h; done)
        | (simp only [Prod.mk.injEq, UpdateOutcome.updated.injEq] at h
           obtain ⟨hp, -, -⟩ := h
           subst hp
           exact updatedProductOf_derived ..)

/-- Witness for C1: the concrete create of `teaVegBody` satisfies the
derived-field invariant. -/
theorem gst_fields_consistent_witness :
    derivedFieldsOk (newProductOf teaVegBody none 1 "123456" 7) :=
  gst_fields_consistent_after_create_and_update.1
    (fun _ => none) teaVegBody none [] 1 "123456" 7 _ _ _
    (createProduct_noFile_success _ _ _ _ _ _ (by decide))

/-- C2: the route's validator rejects the specification's concrete
scenario: creating `teaBody` (type `Beverage`, GST enabled, sell price 20)
fails with `Invalid product type` and persists nothing, although the
Product model used by this route enumerates `Beverage` as a legal type. -/
theorem beverage_create_rejected :
    createProduct (fun _ => none) teaBody none [] 1 "123456" 7 =
      (.validationError ["Invalid product type"], [], []) ∧
    validateProduct teaBody = ["Invalid product type"] := by decide

/-- C3 counterexample: an update request that omits `itemName` but is
otherwise valid fails with the `Item name is required` validation error,
even when the target record exists. -/
theorem update_without_itemName_fails :
    updateProduct (fun _ => none) true noNameBody none [sampleProduct] 5 =
      (.validationError ["Item name is required"], [sampleProduct], []) := by decide

/-- C3 amended: `itemName` is required on update as well — any update
whose body omits `itemName` (with a file that passes the multer filter, or
no file) fails with a validation error containing `Item name is required`
and leaves the store unchanged. -/
theorem update_requires_itemName :
    ∀ upload destroySucceeds body file store productId,
    body.itemName = none →
    file.all multerAccepts = true →
    ∃ errs, updateProduct upload destroySucceeds body file store productId =
        (.validationError errs, store, []) ∧ "Item name is required" ∈ errs := by
  intro upload destroySucceeds body file store productId hname hfile
  obtain ⟨rest, hval⟩ := validate_missing_name body (by rw [hname]; rfl)
  refine ⟨validateProduct body, ?_, ?_⟩
  · unfold updateProduct
    rw [hfile]
    simp [hval]
  · rw [hval]
    exact List.mem_cons_self _ _

/-- Witness for C3 amended: the concrete no-`itemName` update fails with
the required-name validation error. -/
theorem update_requires_itemName_witness :
    ∃ errs, updateProduct (fun _ => none) true noNameBody none [] 0 =
        (.validationError errs, [], []) ∧ "Item name is required" ∈ errs :=
  update_requires_itemName (fun _ => none) true noNameBody none [] 0 rfl rfl

/-- C4: when a (multer-accepted) image upload to the asset host fails
during create on a valid body, the whole create fails with the upload
error and the store is unchanged; the attempted upload is the file. -/
theorem upload_failure_aborts_create :
    ∀ upload body f store newId barcode now,
    multerAccepts f = true →
    validateProduct body = [] →
    upload f = none →
    createProduct upload body (some f) store newId barcode now =
      (.uploadError "Image upload failed", store, [f]) := by
  intro upload body f store newId barcode now hf hv hu
  unfold createProduct
  simp [hf, hv, uploadToCloudinary, hu]

/-- Witness for C4: a failing upload of a concrete image file aborts a
concrete valid create and leaves the empty store empty. -/
theorem upload_failure_aborts_create_witness :
    createProduct (fun _ => none) teaVegBody (some imgFile) [] 1 "123456" 7 =
      (.uploadError "Image upload failed", [], [imgFile]) :=
  upload_failure_aborts_create (fun _ => none) teaVegBody imgFile [] 1 "123456" 7
    (by decide) (by decide) rfl

/-- C5: updating an existing product with a new image file whose upload
succeeds yields an updated record whose `image` is the new URL; the old
asset's destroy is attempted exactly when one was referenced, and the
update succeeds whether or not that destroy succeeds. -/
theorem update_new_image_replaces_and_attempts_delete :
    ∀ upload body f store productId existingProduct newUrl,
    multerAccepts f = true →
    validateProduct body = [] →
    store.find? (fun p => p.id == productId) = some existingProduct →
    upload f = some newUrl →
    ∀ destroySucceeds, ∃ p s,
      updateProduct upload destroySucceeds body (some f) store productId =
        (.updated p, s,
          match existingProduct.image with
          | some img => ["products/" ++ publicIdOf img]
          | none => []) ∧
      p.image = some newUrl := by
  intro upload body f store productId existingProduct newUrl hf hv hfind hu destroySucceeds
  refine ⟨updatedProductOf existingProduct body (some newUrl),
    store.map (fun p => if p.id == productId
      then updatedProductOf existingProduct body (some newUrl) else p), ?_, rfl⟩
  unfold updateProduct
  simp [hf, hv, hfind, uploadToCloudinary, hu]

/-- Witness for C5: a concrete update with a new image on a record that
references an old asset attempts `destroy('products/old456')`, succeeds and
stores the new URL. -/
theorem update_new_image_witness :
    ∃ p s, updateProduct (fun _ => some "https://res.cloudinary.com/demo/products/new789.png")
        true teaVegBody (some imgFile) [oldImgProduct] 7 =
      (.updated p, s, ["products/old456"]) ∧
      p.image = some "https://res.cloudinary.com/demo/products/new789.png" :=
  update_new_image_replaces_and_attempts_delete
    (fun _ => some "https://res.cloudinary.com/demo/products/new789.png")
    teaVegBody imgFile [oldImgProduct] 7 oldImgProduct
    "https://res.cloudinary.com/demo/products/new789.png"
    (by decide) (by decide) (by decide) rfl true

/-- C6: creating a product whose `itemName` trims to the empty string
(empty, whitespace-only, or absent) fails with a validation error
containing `Item name is required`, leaves the store unchanged, and
attempts no upload. -/
theorem empty_itemName_create_rejected :
    ∀ upload body file store newId barcode now,
    file.all multerAccepts = true →
    trimString (body.itemName.getD "") = "" →
    ∃ errs, createProduct upload body file store newId barcode now =
        (.validationError errs, store, []) ∧ "Item name is required" ∈ errs := by
  intro upload body file store newId barcode now hfile hname
  obtain ⟨rest, hval⟩ := validate_missing_name body hname
  refine ⟨validateProduct body, ?_, ?_⟩
  · unfold createProduct
    rw [hfile]
    simp [hval]
  · rw [hval]
    exact List.mem_cons_self _ _

/-- Witness for C6: creating with the whitespace-only name is rejected
with the required-name message and persists nothing. -/
theorem empty_itemName_create_rejected_witness :
    ∃ errs, createProduct (fun _ => none) blankNameBody none [] 1 "123456" 7 =
        (.validationError errs, [], []) ∧ "Item name is required" ∈ errs :=
  empty_itemName_create_rejected (fun _ => none) blankNameBody none [] 1 "123456" 7
    rfl (by decide)

/-- C7: a successful create appends the new record (stamped with the
creation time) to the store, and listing a store of three records with
strictly increasing creation times returns them newest first. -/
theorem list_products_newest_first :
    (∀ upload body file store newId barcode now p s calls,
      createProduct upload body file store newId barcode now = (.created p, s, calls) →
      s = store ++ [p] ∧ p.createdAt = now) ∧
    (∀ a b c : Product, a.createdAt < b.createdAt → b.createdAt < c.createdAt →
      listProducts [a, b, c] = [c, b, a]) := by
  constructor
  · intro upload body file store newId barcode now p s calls h
    unfold createProduct at h
    repeat' split at h
    all_goals
      first
        | (simp at h; done)
        | (simp only [Prod.mk.injEq, CreateOutcome.created.injEq] at h
           obtain ⟨hp, hs, -⟩ := h
           subst hp
           subst hs
           exact ⟨rfl, rfl⟩)
  · intro a b c hab hbc
    have h1 : ¬ (c.createdAt ≤ b.createdAt) := Nat.not_le.mpr hbc
    have h2 : ¬ (c.createdAt ≤ a.createdAt) := Nat.not_le.mpr (lt_trans hab hbc)
    have h3 : ¬ (b.createdAt ≤ a.createdAt) := Nat.not_le.mpr hab
    simp [listProducts, sortByCreatedAtDesc, insertDesc, h1, h2, h3]

/-- Three records created at strictly increasing times. -/
def prodA : Product := { sampleProduct with id := 1, barcode := "111", createdAt := 1 }

/-- Second record, created after `prodA`. -/
def prodB : Product := { sampleProduct with id := 2, barcode := "222", createdAt := 2 }

/-- Third record, created after `prodB`. -/
def prodC : Product := { sampleProduct with id := 3, barcode := "333", createdAt := 3 }

/-- Witness for C7: listing the concrete store `[A, B, C]` returns
`[C, B, A]`. -/
theorem list_products_newest_first_witness :
    listProducts [prodA, prodB, prodC] = [prodC, prodB, prodA] :=
  list_products_newest_first.2 prodA prodB prodC (by decide) (by decide)

/-- C8: deleting an id that is not in the store fails with not-found,
leaves the store unchanged, and attempts no asset destroy. -/
theorem delete_missing_id_not_found :
    ∀ destroySucceeds store productId,
    store.find? (fun p => p.id == productId) = none →
    deleteProduct destroySucceeds store productId = (.notFound, store, []) := by
  intro destroySucceeds store productId h
  unfold deleteProduct
  rw [h]

/-- Witness for C8: deleting id 6 from a store that only holds id 5 is a
not-found failure that changes nothing. -/
theorem delete_missing_id_not_found_witness :
    deleteProduct true [sampleProduct] 6 = (.notFound, [sampleProduct], []) :=
  delete_missing_id_not_found true [sampleProduct] 6 rfl

/-- C9: a successful update never changes `id`, `itemName`, `barcode` or
`createdAt`: for any body (even one supplying a new `itemName`), the
updated record agrees with the found record on those four fields. -/
theorem update_preserves_identity_fields :
    ∀ upload destroySucceeds body file store productId existingProduct p s calls,
    store.find? (fun q => q.id == productId) = some existingProduct →
    updateProduct upload destroySucceeds body file store productId = (.updated p, s, calls) →
    p.id = existingProduct.id ∧ p.itemName = existingProduct.itemName ∧
    p.barcode = existingProduct.barcode ∧ p.createdAt = existingProduct.createdAt := by
  intro upload destroySucceeds body file store productId existingProduct p s calls hfind h
  unfold updateProduct at h
  simp only [hfind] at h
  repeat' split at h
  all_goals
    first
      | (simp at h; done)
      | (simp only [Prod.mk.injEq, UpdateOutcome.updated.injEq] at h
         obtain ⟨hp, -, -⟩ := h
         subst hp
         exact ⟨rfl, rfl, rfl, rfl⟩)

/-- Witness for C9: a concrete update that supplies the new name
`NewName` leaves `id`, `itemName`, `barcode` and `createdAt` of the stored
record untouched. -/
theorem update_preserves_identity_fields_witness :
    (updatedProductOf sampleProduct renameBody sampleProduct.image).id = sampleProduct.id ∧
    (updatedProductOf sampleProduct renameBody sampleProduct.image).itemName = sampleProduct.itemName ∧
    (updatedProductOf sampleProduct renameBody sampleProduct.image).barcode = sampleProduct.barcode ∧
    (updatedProductOf sampleProduct renameBody sampleProduct.image).createdAt = sampleProduct.createdAt :=
  update_preserves_identity_fields (fun _ => none) true renameBody none [sampleProduct] 5
    sampleProduct _ _ _ rfl rfl

/-- C10: the multer middleware accepts a file iff its media type starts
with `image/` and its size is at most `5 * 1024 * 1024` bytes, and a file
it rejects makes create and update fail with no change to the store. -/
theorem multer_filter_image_and_size :
    (∀ f : UploadedFile, multerAccepts f = true ↔
      (beginsWith "image/" f.mimetype = true ∧ f.size ≤ 5 * 1024 * 1024)) ∧
    (∀ upload body f store newId barcode now, multerAccepts f = false →
      createProduct upload body (some f) store newId barcode now =
        (.fileRejected, store, [])) ∧
    (∀ upload destroySucceeds body f store productId, multerAccepts f = false →
      updateProduct upload destroySucceeds body (some f) store productId =
        (.fileRejected, store, [])) := by
  refine ⟨?_, ?_, ?_⟩
  · intro f
    simp [multerAccepts, fileFilterAccepts, fileSizeLimit]
  · intro upload body f store newId barcode now hf
    unfold createProduct
    simp [hf]
  · intro upload destroySucceeds body f store productId hf
    unfold updateProduct
    simp [hf]

/-- Witness for C10: a concrete PDF attachment makes create fail before
anything is persisted. -/
theorem multer_filter_image_and_size_witness :
    createProduct (fun _ => none) teaVegBody (some pdfFile) [] 1 "123456" 7 =
      (.fileRejected, [], []) :=
  multer_filter_image_and_size.2.1 (fun _ => none) teaVegBody pdfFile [] 1 "123456" 7
    (by decide)

end BackendItems
